import Mathlib

/-!
Verification development for the AI video generator backend (`src/main.py`).

The Python module is shallowly embedded:
* timestamps (`time.time()`) become `Int` (only comparisons and subtraction
  of whole-second constants matter);
* the in-memory `generation_status` dict becomes an association list
  `Store`;
* each provider adapter becomes a pure function of an *environment*
  recording what the external provider's HTTP endpoints would answer
  (including the possibility that a call raises, via `Except`); an adapter
  returns the ordered list of progress values it writes to the store for
  its generation together with its `Optional[str]` result;
* the background task `process_video_generation` becomes a function from
  the environment to the sequence of record states its store updates
  produce (`statusTrace`).
-/

set_option maxHeartbeats 1000000
set_option maxRecDepth 100000

namespace AIVideoGen

/-- The status strings stored in a generation record
    (`"queued" | "processing" | "completed" | "failed"`). -/
inductive Status
  | queued
  | processing
  | completed
  | failed
deriving DecidableEq, Repr

/-- `completed` and `failed` are the terminal statuses. -/
def Status.isTerminal : Status → Bool
  | .completed => true
  | .failed => true
  | _ => false

/-- One entry of the `generation_status` dict.  The record created at
request time (main.py lines 99-104) has only `status`, `progress`,
`created_at`, `prompt`; the dict keys that may be added later
(`video_url`, `error`, `completed_at`) are modelled as `Option` fields
that start out `none`. -/
structure GenRecord where
  status : Status
  progress : Int
  created_at : Int
  prompt : String
  video_url : Option String
  error : Option String
  completed_at : Option Int
deriving DecidableEq, Repr

/-- Response model of `GET /status/{id}` (main.py lines 64-68). -/
structure StatusResponse where
  status : Status
  progress : Int
  video_url : Option String
  error : Option String
deriving DecidableEq, Repr

/-- The `StatusResponse` built from a record by `get_generation_status`
(main.py lines 124-129; `status_data.get("progress", 0)` never sees a
missing key because every record is created with `progress`). -/
def statusResponseOf (d : GenRecord) : StatusResponse :=
  { status := d.status
    progress := d.progress
    video_url := d.video_url
    error := d.error }

/-- Request model `VideoPrompt` (main.py lines 52-55) with its pydantic
defaults. -/
structure VideoPrompt where
  prompt : String
  duration : Int := 7
  style : String := "cinematic"
deriving DecidableEq, Repr

/-- `MAX_PROMPT_LENGTH` with its default configuration value
(main.py line 46). -/
def MAX_PROMPT_LENGTH : Nat := 500

/-- The pydantic field constraints declared on `VideoPrompt`
(main.py lines 52-55): `prompt` has `min_length=1, max_length=500`,
`duration` has `ge=5, le=10`. -/
def videoPromptValid (pd : VideoPrompt) : Bool :=
  1 ≤ pd.prompt.length && pd.prompt.length ≤ MAX_PROMPT_LENGTH &&
    5 ≤ pd.duration && pd.duration ≤ 10

/-! ### Python string membership (`needle in haystack`) -/

/-- Whether the character list `needle` occurs contiguously in the second
list, as Python's `in` on strings. -/
def substrAux (needle : List Char) : List Char → Bool
  | [] => needle.isEmpty
  | c :: rest => needle.isPrefixOf (c :: rest) || substrAux needle rest

/-- Python's `needle in haystack` for strings. -/
def pyIn (needle haystack : String) : Bool :=
  substrAux needle.data haystack.data

/-- Python's `str.lower()` (the prompts and keywords here are ASCII). -/
def strLower (s : String) : String :=
  String.mk (s.data.map Char.toLower)

/-- Python's `str.strip()`: drop leading and trailing whitespace. -/
def pyStrip (s : String) : String :=
  String.mk (((s.data.dropWhile Char.isWhitespace).reverse.dropWhile
    Char.isWhitespace).reverse)

/-! ### The enhanced mock adapter (main.py lines 374-401) -/

/-- The keyword-based video selection of `generate_enhanced_mock_video`
(main.py lines 383-396): the prompt is lowercased, the four category
keyword lists are tried in order, the first list with a member occurring
in the lowered prompt wins, and a default URL is used when none matches. -/
def mock_video_url (prompt : String) : String :=
  let prompt_lower := strLower prompt
  if ["cat", "kitten", "pet"].any (fun word => pyIn word prompt_lower) then
    "https://sample-videos.com/zip/10/mp4/480/SampleVideo_480x270_1mb.mp4"
  else if ["ocean", "wave", "water", "sea"].any (fun word => pyIn word prompt_lower) then
    "https://www.learningcontainer.com/wp-content/uploads/2020/05/sample-mp4-file.mp4"
  else if ["nature", "forest", "tree", "landscape"].any (fun word => pyIn word prompt_lower) then
    "https://commondatastorage.googleapis.com/gtv-videos-bucket/sample/ForBiggerEscapes.mp4"
  else if ["city", "urban", "building", "street"].any (fun word => pyIn word prompt_lower) then
    "https://commondatastorage.googleapis.com/gtv-videos-bucket/sample/ForBiggerJoyrides.mp4"
  else
    "https://commondatastorage.googleapis.com/gtv-videos-bucket/sample/BigBuckBunny.mp4"

/-- `generate_enhanced_mock_video` (main.py lines 374-401): writes
progress 60 and then 80 for its generation, sleeps, and returns the
keyword-selected URL; it never fails. -/
def generate_enhanced_mock_video (prompt : String) : List Int × String :=
  ([60, 80], mock_video_url prompt)

/-! ### Provider adapters (main.py lines 175-372)

Each adapter is a function of an environment describing the external
provider's answers.  An HTTP call that raises in Python is an
`Except.error`; the adapter's `try`-block is a function returning the
progress values written so far together with an `AdapterOutcome`, and the
adapter itself is the surrounding `except Exception` handler collapsing
any exception to "no result". -/

/-- Outcome of an adapter's `try` block: either it ran to a `return`
(`ok`, carrying the `Optional[str]` value), or an exception escaped to
the adapter's own `except` clause (`exn`). -/
inductive AdapterOutcome
  | ok (result : Option String)
  | exn (msg : String)
deriving DecidableEq, Repr

/-- Response to the Luma submission POST (main.py lines 202-211):
its HTTP status code and the `id` field of its JSON body. -/
structure LumaSubmitResponse where
  status_code : Nat
  id : Option String
deriving Repr

/-- Response to one Luma status-poll GET (main.py lines 219-230): the
HTTP status code, `status_data.get("state")`, and
`status_data.get("assets", {}).get("video")`. -/
structure LumaPollResponse where
  status_code : Nat
  state : Option String
  video : Option String
deriving Repr

/-- What the Luma endpoints would answer: the submission call and the
`i`-th poll call, each possibly raising. -/
structure LumaEnv where
  submit : Except String LumaSubmitResponse
  polls : Nat → Except String LumaPollResponse

/-- The Luma polling loop (main.py lines 216-236): up to `fuel`
iterations starting at poll index `i`.  A 200-response in state
`"completed"` writes progress 90 and returns the asset video URL if
present (otherwise the loop continues); state `"failed"` ends the
attempt with no result; any other response just continues; running out
of iterations falls through to `return None`. -/
def lumaPollLoop (polls : Nat → Except String LumaPollResponse) :
    Nat → Nat → List Int × AdapterOutcome
  | 0, _ => ([], AdapterOutcome.ok none)
  | fuel + 1, i =>
    match polls i with
    | .error e => ([], AdapterOutcome.exn e)
    | .ok resp =>
      if resp.status_code = 200 then
        if resp.state = some "completed" then
          match resp.video with
          | some url => ([90], AdapterOutcome.ok (some url))
          | none =>
            let rest := lumaPollLoop polls fuel (i + 1)
            (90 :: rest.1, rest.2)
        else if resp.state = some "failed" then
          ([], AdapterOutcome.ok none)
        else
          lumaPollLoop polls fuel (i + 1)
      else
        lumaPollLoop polls fuel (i + 1)

/-- The `try` block of `generate_with_luma_dream_machine` (main.py lines
182-239): progress 25 and 50 are written before the submission POST; a
201 response writes progress 75 and enters the polling loop (30
attempts); any other code falls through to `return None`. -/
def luma_try (env : LumaEnv) : List Int × AdapterOutcome :=
  match env.submit with
  | .error e => ([25, 50], AdapterOutcome.exn e)
  | .ok resp =>
    if resp.status_code = 201 then
      let rest := lumaPollLoop env.polls 30 0
      (25 :: 50 :: 75 :: rest.1, rest.2)
    else
      ([25, 50], AdapterOutcome.ok none)

/-- `generate_with_luma_dream_machine` (main.py lines 175-243): skips
when the key is not configured; otherwise runs the `try` block and maps
any exception to `None` (the `except Exception` clause, line 240). -/
def generate_with_luma_dream_machine (key : Bool) (env : LumaEnv) :
    List Int × Option String :=
  if !key then ([], none)
  else
    match luma_try env with
    | (ps, AdapterOutcome.ok r) => (ps, r)
    | (ps, AdapterOutcome.exn _) => (ps, none)

/-- The `output` field of a Replicate prediction, as inspected by
`output and isinstance(output, list) and len(output) > 0`
(main.py line 304): missing/null, of non-list type, or a list. -/
inductive ReplicateOutput
  | null
  | nonList
  | arr (items : List String)
deriving Repr

/-- Response to the Replicate submission POST (main.py lines 275-284). -/
structure ReplicateSubmitResponse where
  status_code : Nat
  id : Option String
deriving Repr

/-- Response to one Replicate status-poll GET (main.py lines 292-305). -/
structure ReplicatePollResponse where
  status_code : Nat
  status : Option String
  output : ReplicateOutput
deriving Repr

/-- What the Replicate endpoints would answer. -/
structure ReplicateEnv where
  submit : Except String ReplicateSubmitResponse
  polls : Nat → Except String ReplicatePollResponse

/-- The Replicate polling loop (main.py lines 289-310): up to `fuel`
iterations; a 200-response with status `"succeeded"` writes progress 90
and returns `output[0]` when `output` is a non-empty list (otherwise the
loop continues); status `"failed"` ends the attempt with no result. -/
def replicatePollLoop (polls : Nat → Except String ReplicatePollResponse) :
    Nat → Nat → List Int × AdapterOutcome
  | 0, _ => ([], AdapterOutcome.ok none)
  | fuel + 1, i =>
    match polls i with
    | .error e => ([], AdapterOutcome.exn e)
    | .ok resp =>
      if resp.status_code = 200 then
        if resp.status = some "succeeded" then
          match resp.output with
          | .arr (url :: _) => ([90], AdapterOutcome.ok (some url))
          | _ =>
            let rest := replicatePollLoop polls fuel (i + 1)
            (90 :: rest.1, rest.2)
        else if resp.status = some "failed" then
          ([], AdapterOutcome.ok none)
        else
          replicatePollLoop polls fuel (i + 1)
      else
        replicatePollLoop polls fuel (i + 1)

/-- The `try` block of `generate_with_replicate` (main.py lines
252-313): progress 35 and 55 before the submission POST; a 201 response
writes progress 75 and polls (20 attempts). -/
def replicate_try (env : ReplicateEnv) : List Int × AdapterOutcome :=
  match env.submit with
  | .error e => ([35, 55], AdapterOutcome.exn e)
  | .ok resp =>
    if resp.status_code = 201 then
      let rest := replicatePollLoop env.polls 20 0
      (35 :: 55 :: 75 :: rest.1, rest.2)
    else
      ([35, 55], AdapterOutcome.ok none)

/-- `generate_with_replicate` (main.py lines 245-318). -/
def generate_with_replicate (token : Bool) (env : ReplicateEnv) :
    List Int × Option String :=
  if !token then ([], none)
  else
    match replicate_try env with
    | (ps, AdapterOutcome.ok r) => (ps, r)
    | (ps, AdapterOutcome.exn _) => (ps, none)

/-- Response to the single Hugging Face inference POST (main.py lines
349-361): the HTTP status code and the raw response body
(`response.content`, video bytes — the response carries no URL). -/
structure HFResponse where
  status_code : Nat
  content : String
deriving Repr

/-- What the Hugging Face endpoint would answer. -/
structure HFEnv where
  post : Except String HFResponse

/-- The fixed placeholder returned by the Hugging Face adapter on
success (main.py line 365). -/
def hfPlaceholderURL : String :=
  "https://huggingface.co/generated-video-placeholder.mp4"

/-- The `try` block of `generate_with_huggingface` (main.py lines
327-367): progress 40 and 65 before the POST, progress 85 right after
the response arrives; a 200 response whose body exceeds 1000 bytes
yields the locally fixed placeholder URL; everything else falls through
to `return None`. -/
def hf_try (env : HFEnv) : List Int × AdapterOutcome :=
  match env.post with
  | .error e => ([40, 65], AdapterOutcome.exn e)
  | .ok resp =>
    if resp.status_code = 200 then
      if resp.content.length > 1000 then
        ([40, 65, 85], AdapterOutcome.ok (some hfPlaceholderURL))
      else
        ([40, 65, 85], AdapterOutcome.ok none)
    else
      ([40, 65, 85], AdapterOutcome.ok none)

/-- `generate_with_huggingface` (main.py lines 320-372). -/
def generate_with_huggingface (key : Bool) (env : HFEnv) :
    List Int × Option String :=
  if !key then ([], none)
  else
    match hf_try env with
    | (ps, AdapterOutcome.ok r) => (ps, r)
    | (ps, AdapterOutcome.exn _) => (ps, none)

/-! ### The orchestrator `process_video_generation` (main.py lines 131-173) -/

/-- The four fallback stages in their fixed priority order. -/
inductive Provider
  | luma
  | replicate
  | huggingface
  | mock
deriving DecidableEq, Repr

/-- One adapter invocation made by the orchestrator: which stage ran,
the progress values it wrote, and the value it returned. -/
structure Attempt where
  provider : Provider
  writes : List Int
  result : Option String
deriving Repr

/-- Python truthiness of an `Optional[str]`, as tested by
`if not video_url` (main.py lines 149, 153, 157): `None` and the empty
string are falsy. -/
def pyTruthy : Option String → Bool
  | none => false
  | some s => s != ""

/-- Environment of one background run: whether each credential is
configured (`LUMA_API_KEY`, `REPLICATE_API_TOKEN`, `HUGGINGFACE_API_KEY`
truthiness, main.py lines 43-45), the three provider environments, and
`fault`: `some (k, e)` models an unrecoverable exception `e` interrupting
the `try` block of `process_video_generation` after its `k`-th store
update, which the `except` clause (main.py lines 168-173) converts into
a `failed` record. -/
structure Env where
  luma_key : Bool
  replicate_token : Bool
  huggingface_key : Bool
  luma : LumaEnv
  replicate : ReplicateEnv
  huggingface : HFEnv
  fault : Option (Nat × String)

/-- Step 1 of the fallback chain (main.py lines 144-146): the `video_url`
accumulator starts as `None` and Luma runs exactly when its key is
configured. -/
def luma_step (env : Env) : List Attempt × Option String :=
  if env.luma_key then
    let r := generate_with_luma_dream_machine env.luma_key env.luma
    ([⟨Provider.luma, r.1, r.2⟩], r.2)
  else ([], none)

/-- One guarded fallback step (`if not video_url and TOKEN:`, main.py
lines 149-154): when the accumulated `video_url` is falsy and the
credential is configured, the adapter runs, its invocation is recorded
and its result replaces `video_url`; otherwise nothing happens. -/
def chainStep (configured : Bool) (pr : Provider) (res : List Int × Option String)
    (acc : List Attempt × Option String) : List Attempt × Option String :=
  if !pyTruthy acc.2 && configured then
    (acc.1 ++ [⟨pr, res.1, res.2⟩], res.2)
  else acc

/-- The final mock fallback (`if not video_url:`, main.py lines
157-158): the mock runs exactly when `video_url` is still falsy. -/
def mock_step (prompt : String) (acc : List Attempt × Option String) :
    List Attempt × Option String :=
  if !pyTruthy acc.2 then
    let r := generate_enhanced_mock_video prompt
    (acc.1 ++ [⟨Provider.mock, r.1, some r.2⟩], some r.2)
  else acc

/-- The fallback chain (main.py lines 141-158): Luma when configured,
then Replicate when the accumulated `video_url` is falsy and a token is
configured, then Hugging Face likewise, then the mock when `video_url`
is still falsy.  Returns the list of invocations in order and the final
`video_url` value. -/
def process_chain (env : Env) (prompt : String) : List Attempt × Option String :=
  mock_step prompt
    (chainStep env.huggingface_key Provider.huggingface
      (generate_with_huggingface env.huggingface_key env.huggingface)
      (chainStep env.replicate_token Provider.replicate
        (generate_with_replicate env.replicate_token env.replicate)
        (luma_step env)))

/-- A store update writing only the `progress` key
(e.g. main.py line 183). -/
def setProgress (n : Int) : GenRecord → GenRecord :=
  fun r => { r with progress := n }

/-- The `status="processing", progress=10` update opening the `try`
block of `process_video_generation` (main.py lines 136-139). -/
def processingUpdate : GenRecord → GenRecord :=
  fun r => { r with status := Status.processing, progress := 10 }

/-- The store updates performed inside the `try` block of
`process_video_generation` before the final update: the processing
update followed by every progress write the invoked adapters make, in
order. -/
def chain_updates (env : Env) (prompt : String) : List (GenRecord → GenRecord) :=
  processingUpdate ::
    ((process_chain env prompt).1.flatMap (fun a => a.writes)).map setProgress

/-- The final store update of a successful run (main.py lines 161-166). -/
def completedUpdate (url : Option String) (t_done : Int) :
    GenRecord → GenRecord :=
  fun r => { r with
    status := Status.completed
    progress := 100
    video_url := url
    completed_at := some t_done }

/-- The store update of the `except` clause of
`process_video_generation` (main.py lines 169-173). -/
def failedUpdate (e : String) : GenRecord → GenRecord :=
  fun r => { r with
    status := Status.failed
    progress := 0
    error := some e }

/-- All store updates of one background run.  Without a fault the run
ends with the `completed` update (main.py lines 161-166, performed at
time `t_done`); with a fault `(k, e)` the first `k` updates happen and
the `except` clause then writes the `failed` update (main.py lines
169-173). -/
def record_updates (env : Env) (prompt : String) (t_done : Int) :
    List (GenRecord → GenRecord) :=
  match env.fault with
  | none =>
    chain_updates env prompt ++
      [completedUpdate (process_chain env prompt).2 t_done]
  | some (k, e) =>
    (chain_updates env prompt).take k ++ [failedUpdate e]

/-- The record inserted by `POST /generate-video`
(main.py lines 99-104). -/
def initialRecord (t : Int) (prompt : String) : GenRecord :=
  { status := Status.queued, progress := 0, created_at := t,
    prompt := prompt, video_url := none, error := none,
    completed_at := none }

/-- The successive states a record passes through under a list of
updates, the starting state included. -/
def applyUpdates : GenRecord → List (GenRecord → GenRecord) → List GenRecord
  | r, [] => [r]
  | r, f :: fs => r :: applyUpdates (f r) fs

/-- Every state of one generation's record, from its creation at time
`t0` through every store update of the background run. -/
def statusTrace (env : Env) (prompt : String) (t0 t_done : Int) : List GenRecord :=
  applyUpdates (initialRecord t0 prompt) (record_updates env prompt t_done)

/-! ### The HTTP store endpoints -/

/-- The `generation_status` dict, as an association list. -/
abbrev Store := List (String × GenRecord)

/-- Response model of `POST /generate-video` (main.py lines 57-62). -/
structure VideoResponse where
  status : String
  generation_id : String
  message : String
  video_url : Option String := none
  processing_time : Option Int := none
deriving DecidableEq, Repr

/-- The `generate_video` handler body (main.py lines 87-113) for a fresh
id `gid` at time `now`: a prompt that strips to the empty string is
rejected with HTTP 400 before any record is created; otherwise the
`queued` record is inserted and the `queued` response returned. -/
def generate_video (store : Store) (gid : String) (now : Int)
    (pd : VideoPrompt) : Store × Except Nat VideoResponse :=
  if pyStrip pd.prompt = "" then
    (store, Except.error 400)
  else
    (store ++ [(gid, initialRecord now pd.prompt)],
     Except.ok
       { status := "queued", generation_id := gid,
         message := "Video generation started using free AI APIs. Check status for progress." })

/-- `POST /generate-video` as seen over HTTP.  Modelled from the spec:
the request-body validation layer in front of the handler is framework
code not under src (FastAPI/pydantic); per the constraints declared on
`VideoPrompt` (main.py lines 52-55) a body violating them is rejected
with HTTP 422 before `generate_video` runs. -/
def handle_generate_video (store : Store) (gid : String) (now : Int)
    (pd : VideoPrompt) : Store × Except Nat VideoResponse :=
  if !videoPromptValid pd then
    (store, Except.error 422)
  else
    generate_video store gid now pd

/-- `GET /status/{id}` (main.py lines 115-129): 404 for an unknown id,
otherwise the record's fields. -/
def get_generation_status (store : Store) (gid : String) :
    Except Nat StatusResponse :=
  match store.lookup gid with
  | none => Except.error 404
  | some d => Except.ok (statusResponseOf d)

/-- The `active_generations` count of `GET /health`
(main.py lines 417-420). -/
def health_active_generations (store : Store) : Nat :=
  (List.filter
    (fun g : String × GenRecord =>
      g.2.status == Status.queued || g.2.status == Status.processing)
    store).length

/-- `DELETE /cleanup` (main.py lines 449-463) at clock value
`current_time`: deletes the records whose `created_at` is below
`current_time - 24*60*60` and returns the new store, the number cleaned
and the number remaining. -/
def cleanup_old_generations (store : Store) (current_time : Int) :
    Store × Nat × Nat :=
  let cutoff_time := current_time - 24 * 60 * 60
  let to_delete := List.filter
    (fun e : String × GenRecord => decide (e.2.created_at < cutoff_time)) store
  let remaining := List.filter
    (fun e : String × GenRecord => !decide (e.2.created_at < cutoff_time)) store
  (remaining, to_delete.length, remaining.length)

/-! ### Concrete environments for evaluation -/

/-- A Luma endpoint that answers every call with HTTP 500. -/
def stubLumaEnv : LumaEnv :=
  { submit := Except.ok { status_code := 500, id := none },
    polls := fun _ => Except.ok { status_code := 500, state := none, video := none } }

/-- A Replicate endpoint that answers every call with HTTP 500. -/
def stubReplicateEnv : ReplicateEnv :=
  { submit := Except.ok { status_code := 500, id := none },
    polls := fun _ =>
      Except.ok { status_code := 500, status := none, output := ReplicateOutput.null } }

/-- A Hugging Face endpoint that answers with HTTP 500. -/
def stubHFEnv : HFEnv :=
  { post := Except.ok { status_code := 500, content := "" } }

/-- A Luma endpoint whose every call raises a connection error. -/
def raisingLumaEnv : LumaEnv :=
  { submit := Except.error "ConnectError", polls := fun _ => Except.error "ConnectError" }

/-- A Replicate endpoint whose every call raises a connection error. -/
def raisingReplicateEnv : ReplicateEnv :=
  { submit := Except.error "ConnectError", polls := fun _ => Except.error "ConnectError" }

/-- A Hugging Face endpoint whose call raises a connection error. -/
def raisingHFEnv : HFEnv :=
  { post := Except.error "ConnectError" }

/-- A 1001-byte Hugging Face response body (no URL occurs in it). -/
def hfLargeContent : String := String.mk (List.replicate 1001 'x')

/-- A Hugging Face endpoint answering 200 with a large video body. -/
def hfLargeResponseEnv : HFEnv :=
  { post := Except.ok { status_code := 200, content := hfLargeContent } }

/-- A run with Luma and Replicate configured but both failing at
submission (HTTP 500), Hugging Face not configured, no fault. -/
def envLumaThenReplicate : Env :=
  { luma_key := true, replicate_token := true, huggingface_key := false,
    luma := stubLumaEnv, replicate := stubReplicateEnv,
    huggingface := stubHFEnv, fault := none }

/-- A run with no provider credential configured and no fault. -/
def envNoProviders : Env :=
  { luma_key := false, replicate_token := false, huggingface_key := false,
    luma := stubLumaEnv, replicate := stubReplicateEnv,
    huggingface := stubHFEnv, fault := none }

/-- A run with no provider configured, interrupted by an unrecoverable
exception after its second store update. -/
def envWithFault : Env :=
  { envNoProviders with fault := some (2, "boom") }

/-- A Luma endpoint that accepts the submission and reports completion
with a video URL on the first poll. -/
def succeedingLumaEnv : LumaEnv :=
  { submit := Except.ok { status_code := 201, id := some "luma-1" },
    polls := fun _ =>
      Except.ok { status_code := 200, state := some "completed",
                  video := some "https://cdn.lumalabs.ai/v.mp4" } }

/-- A Replicate endpoint that accepts the submission and reports success
with one output URL on the first poll. -/
def succeedingReplicateEnv : ReplicateEnv :=
  { submit := Except.ok { status_code := 201, id := some "pred-1" },
    polls := fun _ =>
      Except.ok { status_code := 200, status := some "succeeded",
                  output := ReplicateOutput.arr ["https://replicate.delivery/v.mp4"] } }

/-! ## Helper lemmas -/

/-- Invariants preserved by every update hold along `applyUpdates`. -/
lemma applyUpdates_inv (P : GenRecord → Prop) :
    ∀ (us : List (GenRecord → GenRecord)) (r0 : GenRecord),
      P r0 → (∀ f ∈ us, ∀ r, P r → P (f r)) →
      ∀ r ∈ applyUpdates r0 us, P r := by
  intro us
  induction us with
  | nil =>
    intro r0 h0 _ r hr
    simp only [applyUpdates, List.mem_singleton] at hr
    exact hr ▸ h0
  | cons f fs ih =>
    intro r0 h0 hpres r hr
    simp only [applyUpdates, List.mem_cons] at hr
    rcases hr with rfl | hr
    · exact h0
    · exact ih (f r0) (hpres f (List.mem_cons_self f fs) r0 h0)
        (fun g hg => hpres g (List.mem_cons_of_mem f hg)) r hr

/-- Unfolding the state sequence over a final update. -/
lemma applyUpdates_append_single (f : GenRecord → GenRecord) :
    ∀ (us : List (GenRecord → GenRecord)) (r0 : GenRecord),
      applyUpdates r0 (us ++ [f]) =
        applyUpdates r0 us ++ [f (us.foldl (fun a g => g a) r0)] := by
  intro us
  induction us with
  | nil => intro r0; simp [applyUpdates]
  | cons g gs ih => intro r0; simp [applyUpdates, ih]

/-- The lengths of the two complementary filters sum to the length. -/
lemma length_filter_partition {α : Type} (p : α → Bool) :
    ∀ l : List α,
      (List.filter p l).length + (List.filter (fun a => !p a) l).length = l.length := by
  intro l
  induction l with
  | nil => simp
  | cons a l ih =>
    cases h : p a <;> simp [List.filter, h, ih] <;> omega

/-- A chain of `≤` on a list whose tail elements are all `c`. -/
lemma chain_le_of_all_eq (c : Int) :
    ∀ (l : List Int) (a : Int), a ≤ c → (∀ q ∈ l, q = c) →
      List.Chain' (· ≤ ·) (a :: l) := by
  intro l
  induction l with
  | nil => intro a _ _; simp
  | cons b t ih =>
    intro a ha hall
    have hb : b = c := hall b (List.mem_cons_self b t)
    rw [List.chain'_cons]
    refine ⟨by omega, ?_⟩
    exact ih b (by omega) (fun q hq => hall q (List.mem_cons_of_mem b hq))

/-! ### Luma adapter lemmas -/

/-- Every progress value the Luma polling loop writes is 90. -/
lemma lumaPollLoop_writes (polls : Nat → Except String LumaPollResponse) :
    ∀ (fuel i : Nat), ∀ q ∈ (lumaPollLoop polls fuel i).1, q = 90 := by
  intro fuel
  induction fuel with
  | zero => intro i q hq; simp [lumaPollLoop] at hq
  | succ n ih =>
    intro i q hq
    rw [lumaPollLoop] at hq
    split at hq
    · simp at hq
    · split at hq
      · split at hq
        · split at hq
          · simp at hq; omega
          · simp only [List.mem_cons] at hq
            rcases hq with rfl | hq
            · rfl
            · exact ih (i + 1) q hq
        · split at hq
          · simp at hq
          · exact ih (i + 1) q hq
      · exact ih (i + 1) q hq

/-- When the Luma polling loop returns a URL, some poll answered 200
with state `"completed"` and that URL as the video asset. -/
lemma lumaPollLoop_ok_some (polls : Nat → Except String LumaPollResponse) :
    ∀ (fuel i : Nat) (ps : List Int) (u : String),
      lumaPollLoop polls fuel i = (ps, AdapterOutcome.ok (some u)) →
      ∃ j, i ≤ j ∧ j < i + fuel ∧ ∃ resp, polls j = Except.ok resp ∧
        resp.status_code = 200 ∧ resp.state = some "completed" ∧
        resp.video = some u := by
  intro fuel
  induction fuel with
  | zero =>
    intro i ps u h
    simp [lumaPollLoop] at h
  | succ n ih =>
    intro i ps u h
    rw [lumaPollLoop] at h
    split at h
    · simp at h
    · rename_i resp hp
      split at h
      · rename_i h200
        split at h
        · rename_i hcomp
          split at h
          · rename_i url hv
            simp only [Prod.mk.injEq, AdapterOutcome.ok.injEq, Option.some.injEq] at h
            exact ⟨i, le_refl i, by omega, resp, hp, h200, hcomp, by rw [hv, h.2]⟩
          · rename_i hv
            simp only [Prod.mk.injEq] at h
            obtain ⟨j, hj1, hj2, rest⟩ := ih (i + 1) (lumaPollLoop polls n (i + 1)).1 u
              (by
                rcases hloop : lumaPollLoop polls n (i + 1) with ⟨a, b⟩
                rw [hloop] at h
                simp only at h
                rw [h.2])
            exact ⟨j, by omega, by omega, rest⟩
        · split at h
          · simp at h
          · obtain ⟨j, hj1, hj2, rest⟩ := ih (i + 1) ps u h
            exact ⟨j, by omega, by omega, rest⟩
      · obtain ⟨j, hj1, hj2, rest⟩ := ih (i + 1) ps u h
        exact ⟨j, by omega, by omega, rest⟩

/-- When the Luma adapter returns a URL, the key was configured, the
submission was accepted with 201, and some poll within the 30-attempt
budget reported completion with exactly that URL. -/
lemma luma_success_evidence (key : Bool) (env : LumaEnv) (ps : List Int) (u : String)
    (h : generate_with_luma_dream_machine key env = (ps, some u)) :
    key = true ∧ ∃ r, env.submit = Except.ok r ∧ r.status_code = 201 ∧
      ∃ j, j < 30 ∧ ∃ resp, env.polls j = Except.ok resp ∧
        resp.status_code = 200 ∧ resp.state = some "completed" ∧
        resp.video = some u := by
  cases key with
  | false => simp [generate_with_luma_dream_machine] at h
  | true =>
    refine ⟨rfl, ?_⟩
    rcases hT : luma_try env with ⟨qs, out⟩
    unfold generate_with_luma_dream_machine at h
    rw [hT] at h
    cases out with
    | exn e => simp at h
    | ok r =>
      simp only [Bool.not_true, Bool.false_eq_true, if_false, Prod.mk.injEq] at h
      rw [h.2] at hT
      unfold luma_try at hT
      split at hT
      · simp at hT
      · rename_i r0 hsub
        split at hT
        · rename_i h201
          simp only [Prod.mk.injEq] at hT
          obtain ⟨j, _, hj2, rest⟩ := lumaPollLoop_ok_some env.polls 30 0
            (lumaPollLoop env.polls 30 0).1 u
            (by
              rcases hloop : lumaPollLoop env.polls 30 0 with ⟨a, b⟩
              rw [hloop] at hT
              simp only at hT
              rw [hT.2])
          exact ⟨r0, hsub, h201, j, by omega, rest⟩
        · simp at hT

/-- An exception escaping the Luma `try` block is caught and turned
into "no result", keeping the progress writes already made. -/
lemma luma_exception_to_none (env : LumaEnv) (ps : List Int) (e : String)
    (h : luma_try env = (ps, AdapterOutcome.exn e)) :
    generate_with_luma_dream_machine true env = (ps, none) := by
  unfold generate_with_luma_dream_machine
  rw [h]
  simp

/-- The progress values the Luma adapter writes. -/
lemma luma_writes (key : Bool) (env : LumaEnv) :
    ∀ q ∈ (generate_with_luma_dream_machine key env).1,
      q = 25 ∨ q = 50 ∨ q = 75 ∨ q = 90 := by
  cases key with
  | false => simp [generate_with_luma_dream_machine]
  | true =>
    intro q hq
    rcases hT : luma_try env with ⟨qs, out⟩
    unfold generate_with_luma_dream_machine at hq
    rw [hT] at hq
    have hqs : q ∈ qs := by
      cases out <;> simpa using hq
    unfold luma_try at hT
    split at hT
    · simp only [Prod.mk.injEq] at hT
      rw [← hT.1] at hqs
      simp at hqs
      omega
    · split at hT
      · simp only [Prod.mk.injEq] at hT
        rw [← hT.1] at hqs
        simp only [List.mem_cons] at hqs
        rcases hqs with rfl | rfl | rfl | hqs
        · left; rfl
        · right; left; rfl
        · right; right; left; rfl
        · exact Or.inr (Or.inr (Or.inr (lumaPollLoop_writes env.polls 30 0 q hqs)))
      · simp only [Prod.mk.injEq] at hT
        rw [← hT.1] at hqs
        simp at hqs
        omega

/-- The progress values the Luma adapter writes are non-decreasing. -/
lemma luma_writes_chain (key : Bool) (env : LumaEnv) :
    List.Chain' (· ≤ ·) (generate_with_luma_dream_machine key env).1 := by
  cases key with
  | false => simp [generate_with_luma_dream_machine]
  | true =>
    rcases hT : luma_try env with ⟨qs, out⟩
    have hfst : (generate_with_luma_dream_machine true env).1 = qs := by
      unfold generate_with_luma_dream_machine
      rw [hT]
      cases out <;> simp
    rw [hfst]
    unfold luma_try at hT
    split at hT
    · simp only [Prod.mk.injEq] at hT
      rw [← hT.1]
      simp [List.chain'_cons]
    · split at hT
      · simp only [Prod.mk.injEq] at hT
        rw [← hT.1]
        rw [List.chain'_cons, List.chain'_cons]
        refine ⟨by omega, by omega, ?_⟩
        exact chain_le_of_all_eq 90 (lumaPollLoop env.polls 30 0).1 75 (by omega)
          (lumaPollLoop_writes env.polls 30 0)
      · simp only [Prod.mk.injEq] at hT
        rw [← hT.1]
        simp [List.chain'_cons]

/-! ### Replicate adapter lemmas -/

/-- Every progress value the Replicate polling loop writes is 90. -/
lemma replicatePollLoop_writes (polls : Nat → Except String ReplicatePollResponse) :
    ∀ (fuel i : Nat), ∀ q ∈ (replicatePollLoop polls fuel i).1, q = 90 := by
  intro fuel
  induction fuel with
  | zero => intro i q hq; simp [replicatePollLoop] at hq
  | succ n ih =>
    intro i q hq
    rw [replicatePollLoop] at hq
    split at hq
    · simp at hq
    · split at hq
      · split at hq
        · split at hq
          · simp at hq; omega
          · simp only [List.mem_cons] at hq
            rcases hq with rfl | hq
            · rfl
            · exact ih (i + 1) q hq
        · split at hq
          · simp at hq
          · exact ih (i + 1) q hq
      · exact ih (i + 1) q hq

/-- When the Replicate polling loop returns a URL, some poll answered
200 with status `"succeeded"` and that URL heading the output list. -/
lemma replicatePollLoop_ok_some (polls : Nat → Except String ReplicatePollResponse) :
    ∀ (fuel i : Nat) (ps : List Int) (u : String),
      replicatePollLoop polls fuel i = (ps, AdapterOutcome.ok (some u)) →
      ∃ j, i ≤ j ∧ j < i + fuel ∧ ∃ resp, polls j = Except.ok resp ∧
        resp.status_code = 200 ∧ resp.status = some "succeeded" ∧
        ∃ tl, resp.output = ReplicateOutput.arr (u :: tl) := by
  intro fuel
  induction fuel with
  | zero =>
    intro i ps u h
    simp [replicatePollLoop] at h
  | succ n ih =>
    intro i ps u h
    rw [replicatePollLoop] at h
    split at h
    · simp at h
    · rename_i resp hp
      split at h
      · rename_i h200
        split at h
        · rename_i hsucc
          split at h
          · rename_i url tl hv
            simp only [Prod.mk.injEq, AdapterOutcome.ok.injEq, Option.some.injEq] at h
            exact ⟨i, le_refl i, by omega, resp, hp, h200, hsucc, tl, by rw [hv, h.2]⟩
          · simp only [Prod.mk.injEq] at h
            obtain ⟨j, hj1, hj2, rest⟩ := ih (i + 1) (replicatePollLoop polls n (i + 1)).1 u
              (by
                rcases hloop : replicatePollLoop polls n (i + 1) with ⟨a, b⟩
                rw [hloop] at h
                simp only at h
                rw [h.2])
            exact ⟨j, by omega, by omega, rest⟩
        · split at h
          · simp at h
          · obtain ⟨j, hj1, hj2, rest⟩ := ih (i + 1) ps u h
            exact ⟨j, by omega, by omega, rest⟩
      · obtain ⟨j, hj1, hj2, rest⟩ := ih (i + 1) ps u h
        exact ⟨j, by omega, by omega, rest⟩

/-- When the Replicate adapter returns a URL, the token was configured,
the submission was accepted with 201, and some poll within the
20-attempt budget reported success with that URL as `output[0]`. -/
lemma replicate_success_evidence (token : Bool) (env : ReplicateEnv)
    (ps : List Int) (u : String)
    (h : generate_with_replicate token env = (ps, some u)) :
    token = true ∧ ∃ r, env.submit = Except.ok r ∧ r.status_code = 201 ∧
      ∃ j, j < 20 ∧ ∃ resp, env.polls j = Except.ok resp ∧
        resp.status_code = 200 ∧ resp.status = some "succeeded" ∧
        ∃ tl, resp.output = ReplicateOutput.arr (u :: tl) := by
  cases token with
  | false => simp [generate_with_replicate] at h
  | true =>
    refine ⟨rfl, ?_⟩
    rcases hT : replicate_try env with ⟨qs, out⟩
    unfold generate_with_replicate at h
    rw [hT] at h
    cases out with
    | exn e => simp at h
    | ok r =>
      simp only [Bool.not_true, Bool.false_eq_true, if_false, Prod.mk.injEq] at h
      rw [h.2] at hT
      unfold replicate_try at hT
      split at hT
      · simp at hT
      · rename_i r0 hsub
        split at hT
        · rename_i h201
          simp only [Prod.mk.injEq] at hT
          obtain ⟨j, _, hj2, rest⟩ := replicatePollLoop_ok_some env.polls 20 0
            (replicatePollLoop env.polls 20 0).1 u
            (by
              rcases hloop : replicatePollLoop env.polls 20 0 with ⟨a, b⟩
              rw [hloop] at hT
              simp only at hT
              rw [hT.2])
          exact ⟨r0, hsub, h201, j, by omega, rest⟩
        · simp at hT

/-- An exception escaping the Replicate `try` block is caught and
turned into "no result". -/
lemma replicate_exception_to_none (env : ReplicateEnv) (ps : List Int) (e : String)
    (h : replicate_try env = (ps, AdapterOutcome.exn e)) :
    generate_with_replicate true env = (ps, none) := by
  unfold generate_with_replicate
  rw [h]
  simp

/-- The progress values the Replicate adapter writes. -/
lemma replicate_writes (token : Bool) (env : ReplicateEnv) :
    ∀ q ∈ (generate_with_replicate token env).1,
      q = 35 ∨ q = 55 ∨ q = 75 ∨ q = 90 := by
  cases token with
  | false => simp [generate_with_replicate]
  | true =>
    intro q hq
    rcases hT : replicate_try env with ⟨qs, out⟩
    unfold generate_with_replicate at hq
    rw [hT] at hq
    have hqs : q ∈ qs := by
      cases out <;> simpa using hq
    unfold replicate_try at hT
    split at hT
    · simp only [Prod.mk.injEq] at hT
      rw [← hT.1] at hqs
      simp at hqs
      omega
    · split at hT
      · simp only [Prod.mk.injEq] at hT
        rw [← hT.1] at hqs
        simp only [List.mem_cons] at hqs
        rcases hqs with rfl | rfl | rfl | hqs
        · left; rfl
        · right; left; rfl
        · right; right; left; rfl
        · exact Or.inr (Or.inr (Or.inr (replicatePollLoop_writes env.polls 20 0 q hqs)))
      · simp only [Prod.mk.injEq] at hT
        rw [← hT.1] at hqs
        simp at hqs
        omega

/-- The progress values the Replicate adapter writes are
non-decreasing. -/
lemma replicate_writes_chain (token : Bool) (env : ReplicateEnv) :
    List.Chain' (· ≤ ·) (generate_with_replicate token env).1 := by
  cases token with
  | false => simp [generate_with_replicate]
  | true =>
    rcases hT : replicate_try env with ⟨qs, out⟩
    have hfst : (generate_with_replicate true env).1 = qs := by
      unfold generate_with_replicate
      rw [hT]
      cases out <;> simp
    rw [hfst]
    unfold replicate_try at hT
    split at hT
    · simp only [Prod.mk.injEq] at hT
      rw [← hT.1]
      simp [List.chain'_cons]
    · split at hT
      · simp only [Prod.mk.injEq] at hT
        rw [← hT.1]
        rw [List.chain'_cons, List.chain'_cons]
        refine ⟨by omega, by omega, ?_⟩
        exact chain_le_of_all_eq 90 (replicatePollLoop env.polls 20 0).1 75 (by omega)
          (replicatePollLoop_writes env.polls 20 0)
      · simp only [Prod.mk.injEq] at hT
        rw [← hT.1]
        simp [List.chain'_cons]

/-! ### Hugging Face adapter lemmas -/

/-- When the Hugging Face adapter returns a URL, the key was
configured, the POST answered 200 with a body larger than 1000 bytes,
and the returned URL is the locally fixed placeholder. -/
lemma hf_success_evidence (key : Bool) (env : HFEnv) (ps : List Int) (u : String)
    (h : generate_with_huggingface key env = (ps, some u)) :
    key = true ∧ u = hfPlaceholderURL ∧ ∃ resp, env.post = Except.ok resp ∧
      resp.status_code = 200 ∧ resp.content.length > 1000 := by
  cases key with
  | false => simp [generate_with_huggingface] at h
  | true =>
    refine ⟨rfl, ?_⟩
    rcases hT : hf_try env with ⟨qs, out⟩
    unfold generate_with_huggingface at h
    rw [hT] at h
    cases out with
    | exn e => simp at h
    | ok r =>
      simp only [Bool.not_true, Bool.false_eq_true, if_false, Prod.mk.injEq] at h
      rw [h.2] at hT
      unfold hf_try at hT
      split at hT
      · simp at hT
      · rename_i resp hpost
        split at hT
        · rename_i h200
          split at hT
          · rename_i hlen
            simp only [Prod.mk.injEq, AdapterOutcome.ok.injEq, Option.some.injEq] at hT
            exact ⟨hT.2.symm, resp, hpost, h200, hlen⟩
          · simp at hT
        · simp at hT

/-- An exception escaping the Hugging Face `try` block is caught and
turned into "no result". -/
lemma hf_exception_to_none (env : HFEnv) (ps : List Int) (e : String)
    (h : hf_try env = (ps, AdapterOutcome.exn e)) :
    generate_with_huggingface true env = (ps, none) := by
  unfold generate_with_huggingface
  rw [h]
  simp

/-- The progress values the Hugging Face adapter writes. -/
lemma hf_writes (key : Bool) (env : HFEnv) :
    ∀ q ∈ (generate_with_huggingface key env).1,
      q = 40 ∨ q = 65 ∨ q = 85 := by
  cases key with
  | false => simp [generate_with_huggingface]
  | true =>
    intro q hq
    rcases hT : hf_try env with ⟨qs, out⟩
    unfold generate_with_huggingface at hq
    rw [hT] at hq
    have hqs : q ∈ qs := by
      cases out <;> simpa using hq
    unfold hf_try at hT
    split at hT
    · simp only [Prod.mk.injEq] at hT
      rw [← hT.1] at hqs
      simp at hqs
      omega
    · split at hT
      · split at hT
        · simp only [Prod.mk.injEq] at hT
          rw [← hT.1] at hqs
          simp at hqs
          omega
        · simp only [Prod.mk.injEq] at hT
          rw [← hT.1] at hqs
          simp at hqs
          omega
      · simp only [Prod.mk.injEq] at hT
        rw [← hT.1] at hqs
        simp at hqs
        omega

/-- The progress values the Hugging Face adapter writes are
non-decreasing. -/
lemma hf_writes_chain (key : Bool) (env : HFEnv) :
    List.Chain' (· ≤ ·) (generate_with_huggingface key env).1 := by
  cases key with
  | false => simp [generate_with_huggingface]
  | true =>
    rcases hT : hf_try env with ⟨qs, out⟩
    have hfst : (generate_with_huggingface true env).1 = qs := by
      unfold generate_with_huggingface
      rw [hT]
      cases out <;> simp
    rw [hfst]
    unfold hf_try at hT
    split at hT
    · simp only [Prod.mk.injEq] at hT
      rw [← hT.1]
      simp [List.chain'_cons]
    · split at hT
      · split at hT
        · simp only [Prod.mk.injEq] at hT
          rw [← hT.1]
          simp [List.chain'_cons]
        · simp only [Prod.mk.injEq] at hT
          rw [← hT.1]
          simp [List.chain'_cons]
      · simp only [Prod.mk.injEq] at hT
        rw [← hT.1]
        simp [List.chain'_cons]

/-! ### Fallback-chain lemmas -/

/-- The only attempt `luma_step` can record is the Luma invocation. -/
lemma luma_step_mem (env : Env) :
    ∀ a ∈ (luma_step env).1,
      a = ⟨Provider.luma, (generate_with_luma_dream_machine env.luma_key env.luma).1,
            (generate_with_luma_dream_machine env.luma_key env.luma).2⟩ := by
  unfold luma_step
  split <;> simp

/-- A guarded step records at most its own invocation. -/
lemma chainStep_mem (c : Bool) (pr : Provider) (res : List Int × Option String)
    (acc : List Attempt × Option String) :
    ∀ a ∈ (chainStep c pr res acc).1,
      a ∈ acc.1 ∨ a = ⟨pr, res.1, res.2⟩ := by
  unfold chainStep
  split
  · simp
  · exact fun a ha => Or.inl ha

/-- The mock step records at most the mock invocation. -/
lemma mock_step_mem (prompt : String) (acc : List Attempt × Option String) :
    ∀ a ∈ (mock_step prompt acc).1,
      a ∈ acc.1 ∨ a = ⟨Provider.mock, [60, 80], some (mock_video_url prompt)⟩ := by
  unfold mock_step generate_enhanced_mock_video
  split
  · simp
  · exact fun a ha => Or.inl ha

/-- Every attempt of the fallback chain is one of the four stage
invocations. -/
lemma process_chain_cases (env : Env) (p : String) :
    ∀ a ∈ (process_chain env p).1,
      a = ⟨Provider.luma, (generate_with_luma_dream_machine env.luma_key env.luma).1,
            (generate_with_luma_dream_machine env.luma_key env.luma).2⟩ ∨
      a = ⟨Provider.replicate, (generate_with_replicate env.replicate_token env.replicate).1,
            (generate_with_replicate env.replicate_token env.replicate).2⟩ ∨
      a = ⟨Provider.huggingface,
            (generate_with_huggingface env.huggingface_key env.huggingface).1,
            (generate_with_huggingface env.huggingface_key env.huggingface).2⟩ ∨
      a = ⟨Provider.mock, [60, 80], some (mock_video_url p)⟩ := by
  intro a ha
  unfold process_chain at ha
  rcases mock_step_mem _ _ a ha with h | h
  · rcases chainStep_mem _ _ _ _ a h with h2 | h2
    · rcases chainStep_mem _ _ _ _ a h2 with h3 | h3
      · exact Or.inl (luma_step_mem env a h3)
      · exact Or.inr (Or.inl h3)
    · exact Or.inr (Or.inr (Or.inl h2))
  · exact Or.inr (Or.inr (Or.inr h))

/-- Appending an attempt to an accumulator whose value is falsy keeps
the invariant: every attempt but the last has a falsy result, and the
accumulated value is the last attempt's result. -/
lemma append_step_inv (acc : List Attempt × Option String) (att : Attempt)
    (hguard : pyTruthy acc.2 = false)
    (h1 : ∀ a ∈ acc.1.dropLast, pyTruthy a.result = false)
    (h3 : ∀ a, acc.1.getLast? = some a → a.result = acc.2) :
    (∀ a ∈ (acc.1 ++ [att]).dropLast, pyTruthy a.result = false) ∧
    (∀ a, (acc.1 ++ [att]).getLast? = some a → a.result = att.result) := by
  constructor
  · intro a ha
    rw [List.dropLast_concat] at ha
    by_cases hnil : acc.1 = []
    · rw [hnil] at ha
      simp at ha
    · rw [← List.dropLast_append_getLast hnil] at ha
      rcases List.mem_append.mp ha with h | h
      · exact h1 a h
      · simp only [List.mem_singleton] at h
        rw [h, h3 (acc.1.getLast hnil) (List.getLast?_eq_getLast acc.1 hnil)]
        exact hguard
  · intro a ha
    rw [List.getLast?_concat] at ha
    cases ha
    rfl

/-- The invariant holds after `luma_step`. -/
lemma luma_step_inv (env : Env) :
    (∀ a ∈ (luma_step env).1.dropLast, pyTruthy a.result = false) ∧
    (∀ a, (luma_step env).1.getLast? = some a → a.result = (luma_step env).2) := by
  unfold luma_step
  split
  · constructor
    · simp
    · intro a ha
      simp only [List.getLast?_singleton, Option.some.injEq] at ha
      rw [← ha]
  · simp

/-- Guarded steps preserve the invariant. -/
lemma chainStep_inv (c : Bool) (pr : Provider) (res : List Int × Option String)
    (acc : List Attempt × Option String)
    (h1 : ∀ a ∈ acc.1.dropLast, pyTruthy a.result = false)
    (h3 : ∀ a, acc.1.getLast? = some a → a.result = acc.2) :
    (∀ a ∈ (chainStep c pr res acc).1.dropLast, pyTruthy a.result = false) ∧
    (∀ a, (chainStep c pr res acc).1.getLast? = some a →
      a.result = (chainStep c pr res acc).2) := by
  unfold chainStep
  split
  · rename_i hg
    have hguard : pyTruthy acc.2 = false := by
      have := (Bool.and_eq_true _ _).mp hg
      simpa using this.1
    exact append_step_inv acc ⟨pr, res.1, res.2⟩ hguard h1 h3
  · exact ⟨h1, h3⟩

/-- The mock step preserves the invariant. -/
lemma mock_step_inv (prompt : String) (acc : List Attempt × Option String)
    (h1 : ∀ a ∈ acc.1.dropLast, pyTruthy a.result = false)
    (h3 : ∀ a, acc.1.getLast? = some a → a.result = acc.2) :
    (∀ a ∈ (mock_step prompt acc).1.dropLast, pyTruthy a.result = false) ∧
    (∀ a, (mock_step prompt acc).1.getLast? = some a →
      a.result = (mock_step prompt acc).2) := by
  unfold mock_step
  split
  · rename_i hg
    have hguard : pyTruthy acc.2 = false := by simpa using hg
    exact append_step_inv acc
      ⟨Provider.mock, (generate_enhanced_mock_video prompt).1,
        some (generate_enhanced_mock_video prompt).2⟩ hguard h1 h3
  · exact ⟨h1, h3⟩

/-- In the fallback chain, every attempt before the last one returned a
falsy result, and the chain's final value is the last attempt's
result. -/
lemma process_chain_inv (env : Env) (p : String) :
    (∀ a ∈ (process_chain env p).1.dropLast, pyTruthy a.result = false) ∧
    (∀ a, (process_chain env p).1.getLast? = some a →
      a.result = (process_chain env p).2) := by
  have i1 := luma_step_inv env
  have i2 := chainStep_inv env.replicate_token Provider.replicate
    (generate_with_replicate env.replicate_token env.replicate)
    (luma_step env) i1.1 i1.2
  have i3 := chainStep_inv env.huggingface_key Provider.huggingface
    (generate_with_huggingface env.huggingface_key env.huggingface)
    (chainStep env.replicate_token Provider.replicate
      (generate_with_replicate env.replicate_token env.replicate)
      (luma_step env)) i2.1 i2.2
  exact mock_step_inv p _ i3.1 i3.2

/-- A guarded step either does nothing or appends its invocation. -/
lemma chainStep_fst (c : Bool) (pr : Provider) (res : List Int × Option String)
    (acc : List Attempt × Option String) :
    (chainStep c pr res acc).1 = acc.1 ∨
    (chainStep c pr res acc).1 = acc.1 ++ [⟨pr, res.1, res.2⟩] := by
  unfold chainStep
  split
  · exact Or.inr rfl
  · exact Or.inl rfl

/-- The mock step either does nothing or appends the mock invocation. -/
lemma mock_step_fst (prompt : String) (acc : List Attempt × Option String) :
    (mock_step prompt acc).1 = acc.1 ∨
    (mock_step prompt acc).1 =
      acc.1 ++ [⟨Provider.mock, [60, 80], some (mock_video_url prompt)⟩] := by
  unfold mock_step generate_enhanced_mock_video
  split
  · exact Or.inr rfl
  · exact Or.inl rfl

/-- The providers `luma_step` can record. -/
lemma luma_step_sublist (env : Env) :
    List.Sublist ((luma_step env).1.map Attempt.provider) [Provider.luma] := by
  unfold luma_step
  split <;> simp

/-- A guarded step extends the recorded provider sequence by at most its
own provider, at the end. -/
lemma chainStep_sublist {L : List Provider} (c : Bool) (pr : Provider)
    (res : List Int × Option String) (acc : List Attempt × Option String)
    (h : List.Sublist (acc.1.map Attempt.provider) L) :
    List.Sublist ((chainStep c pr res acc).1.map Attempt.provider) (L ++ [pr]) := by
  rcases chainStep_fst c pr res acc with hf | hf <;> rw [hf]
  · exact h.trans (List.sublist_append_left L [pr])
  · rw [List.map_append]
    simp only [List.map_cons, List.map_nil]
    exact List.Sublist.append h (List.Sublist.refl _)

/-- The mock step extends the recorded provider sequence by at most the
mock, at the end. -/
lemma mock_step_sublist {L : List Provider} (prompt : String)
    (acc : List Attempt × Option String)
    (h : List.Sublist (acc.1.map Attempt.provider) L) :
    List.Sublist ((mock_step prompt acc).1.map Attempt.provider)
      (L ++ [Provider.mock]) := by
  rcases mock_step_fst prompt acc with hf | hf <;> rw [hf]
  · exact h.trans (List.sublist_append_left L [Provider.mock])
  · rw [List.map_append]
    simp only [List.map_cons, List.map_nil]
    exact List.Sublist.append h (List.Sublist.refl _)

/-- Luma is attempted exactly when its key is configured. -/
lemma luma_step_map_self (env : Env) :
    Provider.luma ∈ (luma_step env).1.map Attempt.provider ↔ env.luma_key = true := by
  unfold luma_step
  split
  · rename_i h; simp [h]
  · rename_i h
    simp only [List.map_nil, List.not_mem_nil, false_iff]
    exact h

/-- A guarded step leaves other providers' membership unchanged. -/
lemma chainStep_map_ne (c : Bool) (pr : Provider) (res : List Int × Option String)
    (acc : List Attempt × Option String) (q : Provider) (hq : q ≠ pr) :
    (q ∈ (chainStep c pr res acc).1.map Attempt.provider ↔
      q ∈ acc.1.map Attempt.provider) := by
  rcases chainStep_fst c pr res acc with hf | hf <;> rw [hf]
  simp [hq]

/-- A guarded step's provider is attempted exactly when its guard
fires. -/
lemma chainStep_map_self (c : Bool) (pr : Provider) (res : List Int × Option String)
    (acc : List Attempt × Option String)
    (hpr : pr ∉ acc.1.map Attempt.provider) :
    (pr ∈ (chainStep c pr res acc).1.map Attempt.provider ↔
      (!pyTruthy acc.2 && c) = true) := by
  unfold chainStep
  split
  · rename_i hg
    simp [hg]
  · rename_i hg
    exact ⟨fun h => absurd h hpr, fun h => absurd h hg⟩

/-- The mock step leaves other providers' membership unchanged. -/
lemma mock_step_map_ne (prompt : String) (acc : List Attempt × Option String)
    (q : Provider) (hq : q ≠ Provider.mock) :
    (q ∈ (mock_step prompt acc).1.map Attempt.provider ↔
      q ∈ acc.1.map Attempt.provider) := by
  rcases mock_step_fst prompt acc with hf | hf <;> rw [hf]
  simp [hq]

/-- The mock runs exactly when the accumulated value is falsy. -/
lemma mock_step_map_self (prompt : String) (acc : List Attempt × Option String)
    (hmock : Provider.mock ∉ acc.1.map Attempt.provider) :
    (Provider.mock ∈ (mock_step prompt acc).1.map Attempt.provider ↔
      pyTruthy acc.2 = false) := by
  unfold mock_step
  split
  · rename_i hg
    simp only [Bool.not_eq_true'] at hg
    simp [hg]
  · rename_i hg
    simp only [Bool.not_eq_true', Bool.not_eq_false] at hg
    constructor
    · intro h; exact absurd h hmock
    · intro h; rw [hg] at h; cases h

/-! ## C4 — mock keyword mapping -/

/-- C4: the mock adapter's URL is a deterministic pure function of the
prompt text: a prompt containing "cat" maps to the cat-category URL; one
containing "ocean" and no cat-category keyword to the ocean-category
URL; one containing "forest" and no earlier-category keyword to the
nature-category URL; one containing "city" and no earlier-category
keyword to the city-category URL (matching is case-insensitive substring
in a fixed category order, first match winning); the prompt
"a story about a lighthouse" maps to the default-category URL; and
"CAT video" maps to the same URL as its lowercase form. -/
theorem mock_keyword_mapping :
    (∀ p : String, pyIn "cat" (strLower p) = true →
      mock_video_url p =
        "https://sample-videos.com/zip/10/mp4/480/SampleVideo_480x270_1mb.mp4") ∧
    (∀ p : String, pyIn "ocean" (strLower p) = true →
      pyIn "cat" (strLower p) = false → pyIn "kitten" (strLower p) = false →
      pyIn "pet" (strLower p) = false →
      mock_video_url p =
        "https://www.learningcontainer.com/wp-content/uploads/2020/05/sample-mp4-file.mp4") ∧
    (∀ p : String, pyIn "forest" (strLower p) = true →
      pyIn "cat" (strLower p) = false → pyIn "kitten" (strLower p) = false →
      pyIn "pet" (strLower p) = false → pyIn "ocean" (strLower p) = false →
      pyIn "wave" (strLower p) = false → pyIn "water" (strLower p) = false →
      pyIn "sea" (strLower p) = false →
      mock_video_url p =
        "https://commondatastorage.googleapis.com/gtv-videos-bucket/sample/ForBiggerEscapes.mp4") ∧
    (∀ p : String, pyIn "city" (strLower p) = true →
      pyIn "cat" (strLower p) = false → pyIn "kitten" (strLower p) = false →
      pyIn "pet" (strLower p) = false → pyIn "ocean" (strLower p) = false →
      pyIn "wave" (strLower p) = false → pyIn "water" (strLower p) = false →
      pyIn "sea" (strLower p) = false → pyIn "nature" (strLower p) = false →
      pyIn "forest" (strLower p) = false → pyIn "tree" (strLower p) = false →
      pyIn "landscape" (strLower p) = false →
      mock_video_url p =
        "https://commondatastorage.googleapis.com/gtv-videos-bucket/sample/ForBiggerJoyrides.mp4") ∧
    mock_video_url "a story about a lighthouse" =
      "https://commondatastorage.googleapis.com/gtv-videos-bucket/sample/BigBuckBunny.mp4" ∧
    mock_video_url "CAT video" = mock_video_url "cat video" := by
  refine ⟨?_, ?_, ?_, ?_, by decide, by decide⟩
  · intro p h
    simp [mock_video_url, h]
  · intro p h h1 h2 h3
    simp [mock_video_url, h, h1, h2, h3]
  · intro p h h1 h2 h3 h4 h5 h6 h7
    simp [mock_video_url, h, h1, h2, h3, h4, h5, h6, h7]
  · intro p h h1 h2 h3 h4 h5 h6 h7 h8 h9 h10 h11
    simp [mock_video_url, h, h1, h2, h3, h4, h5, h6, h7, h8, h9, h10, h11]

/-- Witness for C4 at concrete prompts. -/
theorem mock_keyword_mapping_witness :
    mock_video_url "a CAT on a boat" =
      "https://sample-videos.com/zip/10/mp4/480/SampleVideo_480x270_1mb.mp4" ∧
    mock_video_url "the deep ocean" =
      "https://www.learningcontainer.com/wp-content/uploads/2020/05/sample-mp4-file.mp4" :=
  ⟨mock_keyword_mapping.1 "a CAT on a boat" (by decide),
   mock_keyword_mapping.2.1 "the deep ocean" (by decide) (by decide) (by decide)
     (by decide)⟩

/-! ## C9 — cleanup -/

/-- C9: `DELETE /cleanup` keeps exactly the records whose creation
timestamp is at most 24 hours before the current time (deleting all
others), reports the deleted count and the remaining count, the two
counts partition the store, and a second call at the same clock value
deletes 0 records. -/
theorem cleanup_reaps_exactly_old_records (store : Store) (now : Int) :
    (∀ e : String × GenRecord,
      e ∈ (cleanup_old_generations store now).1 ↔
        e ∈ store ∧ ¬ now - e.2.created_at > 24 * 60 * 60) ∧
    (cleanup_old_generations store now).2.1 =
      (List.filter (fun e : String × GenRecord =>
        decide (now - e.2.created_at > 24 * 60 * 60)) store).length ∧
    (cleanup_old_generations store now).2.2 =
      (cleanup_old_generations store now).1.length ∧
    (cleanup_old_generations store now).2.1 + (cleanup_old_generations store now).2.2 =
      store.length ∧
    (cleanup_old_generations (cleanup_old_generations store now).1 now).2.1 = 0 := by
  refine ⟨?_, ?_, ?_, ?_, ?_⟩
  · intro e
    simp only [cleanup_old_generations, List.mem_filter, Bool.not_eq_true',
      decide_eq_false_iff_not]
    constructor
    · rintro ⟨h1, h2⟩; exact ⟨h1, by omega⟩
    · rintro ⟨h1, h2⟩; exact ⟨h1, by omega⟩
  · simp only [cleanup_old_generations]
    rw [List.filter_congr]
    intro e _
    simp only [decide_eq_decide]
    omega
  · rfl
  · simp only [cleanup_old_generations]
    exact length_filter_partition _ store
  · simp only [cleanup_old_generations, List.filter_filter]
    simp

/-- Witness for C9 on a two-record store: the fresh record survives and
the repeated call cleans 0. -/
theorem cleanup_reaps_witness :
    ("fresh", initialRecord 150000 "y") ∈
      (cleanup_old_generations
        [("old", initialRecord 0 "x"), ("fresh", initialRecord 150000 "y")] 200000).1 ∧
    (cleanup_old_generations
      (cleanup_old_generations
        [("old", initialRecord 0 "x"), ("fresh", initialRecord 150000 "y")] 200000).1
      200000).2.1 = 0 :=
  ⟨((cleanup_reaps_exactly_old_records
      [("old", initialRecord 0 "x"), ("fresh", initialRecord 150000 "y")] 200000).1
      ("fresh", initialRecord 150000 "y")).mpr (by decide),
   (cleanup_reaps_exactly_old_records
      [("old", initialRecord 0 "x"), ("fresh", initialRecord 150000 "y")]
      200000).2.2.2.2⟩

/-! ## C3 — rejection of empty / whitespace-only prompts -/

/-- C3 counterexample: a request whose prompt is the empty string is
rejected by the request-body validation declared on `VideoPrompt`
(`min_length=1`) with HTTP 422, not with the 400 the claim states; no
record is created. -/
theorem empty_prompt_rejected_with_422_not_400 :
    (handle_generate_video [] "gid-1" 0 { prompt := "" }).2 = Except.error 422 ∧
    (422 : Nat) ≠ 400 ∧
    (handle_generate_video [] "gid-1" 0 { prompt := "" }).1 = [] := by
  refine ⟨rfl, by decide, rfl⟩

/-- C3 amended: a request whose prompt strips to the empty string is
rejected synchronously — with 400 by the handler when the body passes
the declared field validation (whitespace-only prompt of valid length),
and with 422 by the validation layer otherwise (in particular for the
empty prompt) — and in both cases no record is created, so the /health
active count is unchanged. -/
theorem blank_prompt_rejected_no_record (store : Store) (gid : String)
    (now : Int) (pd : VideoPrompt) (h : pyStrip pd.prompt = "") :
    (handle_generate_video store gid now pd).1 = store ∧
    health_active_generations (handle_generate_video store gid now pd).1 =
      health_active_generations store ∧
    (handle_generate_video store gid now pd).2 =
      Except.error (if videoPromptValid pd then 400 else 422) := by
  unfold handle_generate_video generate_video
  cases hv : videoPromptValid pd <;> simp [hv, h]

/-- Witness for C3 (amended) at a whitespace-only prompt of valid
length: rejected with 400, store unchanged. -/
theorem blank_prompt_rejected_no_record_witness :
    (handle_generate_video [] "gid-2" 0 { prompt := "  \t " }).1 = [] ∧
    health_active_generations
      (handle_generate_video [] "gid-2" 0 { prompt := "  \t " }).1 =
      health_active_generations [] ∧
    (handle_generate_video [] "gid-2" 0 { prompt := "  \t " }).2 =
      Except.error (if videoPromptValid { prompt := "  \t " } then 400 else 422) :=
  blank_prompt_rejected_no_record [] "gid-2" 0 { prompt := "  \t " } (by decide)

/-! ## C6 — adapters never raise past their boundary -/

/-- C6: no adapter lets an exception past its own boundary — any
exception escaping an adapter's `try` block is caught and becomes "no
result" (with the progress writes already made kept) — and an adapter
returns a URL only when its provider accepted the submission and a poll
within the budget reported genuine completion; hence every provider
error, non-2xx response, provider-reported failure, unusable payload or
poll-budget exhaustion ends in `none`, never in an exception reaching
the orchestrator. -/
theorem adapters_never_raise (lenv : LumaEnv) (renv : ReplicateEnv) (henv : HFEnv) :
    (∀ ps e, luma_try lenv = (ps, AdapterOutcome.exn e) →
      generate_with_luma_dream_machine true lenv = (ps, none)) ∧
    (∀ ps e, replicate_try renv = (ps, AdapterOutcome.exn e) →
      generate_with_replicate true renv = (ps, none)) ∧
    (∀ ps e, hf_try henv = (ps, AdapterOutcome.exn e) →
      generate_with_huggingface true henv = (ps, none)) ∧
    (∀ ps u, generate_with_luma_dream_machine true lenv = (ps, some u) →
      ∃ r, lenv.submit = Except.ok r ∧ r.status_code = 201 ∧
        ∃ j, j < 30 ∧ ∃ resp, lenv.polls j = Except.ok resp ∧
          resp.status_code = 200 ∧ resp.state = some "completed" ∧
          resp.video = some u) ∧
    (∀ ps u, generate_with_replicate true renv = (ps, some u) →
      ∃ r, renv.submit = Except.ok r ∧ r.status_code = 201 ∧
        ∃ j, j < 20 ∧ ∃ resp, renv.polls j = Except.ok resp ∧
          resp.status_code = 200 ∧ resp.status = some "succeeded" ∧
          ∃ tl, resp.output = ReplicateOutput.arr (u :: tl)) ∧
    (∀ ps u, generate_with_huggingface true henv = (ps, some u) →
      u = hfPlaceholderURL ∧ ∃ resp, henv.post = Except.ok resp ∧
        resp.status_code = 200 ∧ resp.content.length > 1000) :=
  ⟨fun ps e h => luma_exception_to_none lenv ps e h,
   fun ps e h => replicate_exception_to_none renv ps e h,
   fun ps e h => hf_exception_to_none henv ps e h,
   fun ps u h => (luma_success_evidence true lenv ps u h).2,
   fun ps u h => (replicate_success_evidence true renv ps u h).2,
   fun ps u h => (hf_success_evidence true henv ps u h).2⟩

/-- Witness for C6: endpoints whose every call raises yield "no
result" from each adapter. -/
theorem adapters_never_raise_witness :
    generate_with_luma_dream_machine true raisingLumaEnv = ([25, 50], none) ∧
    generate_with_replicate true raisingReplicateEnv = ([35, 55], none) ∧
    generate_with_huggingface true raisingHFEnv = ([40, 65], none) :=
  ⟨(adapters_never_raise raisingLumaEnv raisingReplicateEnv raisingHFEnv).1
      [25, 50] "ConnectError" rfl,
   (adapters_never_raise raisingLumaEnv raisingReplicateEnv raisingHFEnv).2.1
      [35, 55] "ConnectError" rfl,
   (adapters_never_raise raisingLumaEnv raisingReplicateEnv raisingHFEnv).2.2.1
      [40, 65] "ConnectError" rfl⟩

/-! ## C7 — provenance of returned URLs -/

/-- C7 counterexample: with a 200-response whose 1001-byte body is
`hfLargeContent`, the Hugging Face adapter succeeds and returns the
fixed placeholder URL, which does not occur anywhere in the provider's
response — so its returned value is not the URL reported by the
provider. -/
theorem huggingface_url_not_provider_reported :
    (generate_with_huggingface true hfLargeResponseEnv).2 = some hfPlaceholderURL ∧
    substrAux hfPlaceholderURL.data hfLargeContent.data = false := by
  exact ⟨rfl, by decide⟩

/-- C7 amended: when the Luma or Replicate adapter succeeds, the
returned value is a URL reported by that provider in a poll response
(the video asset, resp. the head of the output list); the Hugging Face
adapter instead always returns the locally synthesized placeholder URL
on success. -/
theorem adapter_success_url_provenance (lenv : LumaEnv) (renv : ReplicateEnv)
    (henv : HFEnv) :
    (∀ ps u, generate_with_luma_dream_machine true lenv = (ps, some u) →
      ∃ j resp, lenv.polls j = Except.ok resp ∧ resp.video = some u) ∧
    (∀ ps u, generate_with_replicate true renv = (ps, some u) →
      ∃ j resp tl, renv.polls j = Except.ok resp ∧
        resp.output = ReplicateOutput.arr (u :: tl)) ∧
    (∀ ps u, generate_with_huggingface true henv = (ps, some u) →
      u = hfPlaceholderURL) := by
  refine ⟨?_, ?_, ?_⟩
  · intro ps u h
    obtain ⟨-, r, -, -, j, -, resp, hpoll, -, -, hvid⟩ :=
      luma_success_evidence true lenv ps u h
    exact ⟨j, resp, hpoll, hvid⟩
  · intro ps u h
    obtain ⟨-, r, -, -, j, -, resp, hpoll, -, -, tl, hout⟩ :=
      replicate_success_evidence true renv ps u h
    exact ⟨j, resp, tl, hpoll, hout⟩
  · intro ps u h
    exact (hf_success_evidence true henv ps u h).2.1

/-- Witness for C7 (amended): a succeeding Luma endpoint's reported URL
is exactly what the adapter returns. -/
theorem adapter_success_url_provenance_witness :
    ∃ j resp, succeedingLumaEnv.polls j = Except.ok resp ∧
      resp.video = some "https://cdn.lumalabs.ai/v.mp4" :=
  (adapter_success_url_provenance succeedingLumaEnv succeedingReplicateEnv
    raisingHFEnv).1 [25, 50, 75, 90] "https://cdn.lumalabs.ai/v.mp4" rfl

/-! ## C5 — fallback order -/

/-- C5: for every run the recorded attempts follow the fixed priority
order Luma, Replicate, Hugging Face, mock (as an in-order subsequence);
Luma is attempted iff its key is configured; Replicate and Hugging Face
are attempted iff their credential is configured and the accumulated
result is still falsy; the mock is invoked iff no configured provider
produced a (truthy) URL; every attempt before the last returned no
usable URL (the chain stops at the first success); and the chain's
final value is the last attempt's result.  With zero providers
configured, the chain is exactly one mock invocation. -/
theorem provider_fallback_order (env : Env) (p : String) :
    List.Sublist ((process_chain env p).1.map Attempt.provider)
      [Provider.luma, Provider.replicate, Provider.huggingface, Provider.mock] ∧
    (Provider.luma ∈ (process_chain env p).1.map Attempt.provider ↔
      env.luma_key = true) ∧
    (Provider.replicate ∈ (process_chain env p).1.map Attempt.provider ↔
      (!pyTruthy (luma_step env).2 && env.replicate_token) = true) ∧
    (Provider.huggingface ∈ (process_chain env p).1.map Attempt.provider ↔
      (!pyTruthy (chainStep env.replicate_token Provider.replicate
          (generate_with_replicate env.replicate_token env.replicate)
          (luma_step env)).2 && env.huggingface_key) = true) ∧
    (Provider.mock ∈ (process_chain env p).1.map Attempt.provider ↔
      pyTruthy (chainStep env.huggingface_key Provider.huggingface
          (generate_with_huggingface env.huggingface_key env.huggingface)
          (chainStep env.replicate_token Provider.replicate
            (generate_with_replicate env.replicate_token env.replicate)
            (luma_step env))).2 = false) ∧
    (∀ a ∈ (process_chain env p).1.dropLast, pyTruthy a.result = false) ∧
    (∀ a, (process_chain env p).1.getLast? = some a →
      a.result = (process_chain env p).2) ∧
    (env.luma_key = false → env.replicate_token = false →
      env.huggingface_key = false →
      (process_chain env p).1 =
        [⟨Provider.mock, [60, 80], some (mock_video_url p)⟩]) := by
  have sub1 := luma_step_sublist env
  have sub2 := chainStep_sublist env.replicate_token Provider.replicate
    (generate_with_replicate env.replicate_token env.replicate) (luma_step env) sub1
  have sub3 := chainStep_sublist env.huggingface_key Provider.huggingface
    (generate_with_huggingface env.huggingface_key env.huggingface) _ sub2
  have subF := mock_step_sublist p _ sub3
  have hrep1 : Provider.replicate ∉ (luma_step env).1.map Attempt.provider := by
    intro h
    have := sub1.subset h
    simp at this
  have hhf2 : Provider.huggingface ∉
      (chainStep env.replicate_token Provider.replicate
        (generate_with_replicate env.replicate_token env.replicate)
        (luma_step env)).1.map Attempt.provider := by
    intro h
    have := sub2.subset h
    simp at this
  have hmock3 : Provider.mock ∉
      (chainStep env.huggingface_key Provider.huggingface
        (generate_with_huggingface env.huggingface_key env.huggingface)
        (chainStep env.replicate_token Provider.replicate
          (generate_with_replicate env.replicate_token env.replicate)
          (luma_step env))).1.map Attempt.provider := by
    intro h
    have := sub3.subset h
    simp at this
  refine ⟨by simpa using subF, ?_, ?_, ?_, ?_, (process_chain_inv env p).1,
    (process_chain_inv env p).2, ?_⟩
  · rw [show process_chain env p = mock_step p
        (chainStep env.huggingface_key Provider.huggingface
          (generate_with_huggingface env.huggingface_key env.huggingface)
          (chainStep env.replicate_token Provider.replicate
            (generate_with_replicate env.replicate_token env.replicate)
            (luma_step env))) from rfl,
      mock_step_map_ne _ _ _ (by decide),
      chainStep_map_ne _ _ _ _ _ (by decide),
      chainStep_map_ne _ _ _ _ _ (by decide)]
    exact luma_step_map_self env
  · rw [show process_chain env p = mock_step p
        (chainStep env.huggingface_key Provider.huggingface
          (generate_with_huggingface env.huggingface_key env.huggingface)
          (chainStep env.replicate_token Provider.replicate
            (generate_with_replicate env.replicate_token env.replicate)
            (luma_step env))) from rfl,
      mock_step_map_ne _ _ _ (by decide),
      chainStep_map_ne _ _ _ _ _ (by decide)]
    exact chainStep_map_self _ _ _ _ hrep1
  · rw [show process_chain env p = mock_step p
        (chainStep env.huggingface_key Provider.huggingface
          (generate_with_huggingface env.huggingface_key env.huggingface)
          (chainStep env.replicate_token Provider.replicate
            (generate_with_replicate env.replicate_token env.replicate)
            (luma_step env))) from rfl,
      mock_step_map_ne _ _ _ (by decide)]
    exact chainStep_map_self _ _ _ _ hhf2
  · rw [show process_chain env p = mock_step p
        (chainStep env.huggingface_key Provider.huggingface
          (generate_with_huggingface env.huggingface_key env.huggingface)
          (chainStep env.replicate_token Provider.replicate
            (generate_with_replicate env.replicate_token env.replicate)
            (luma_step env))) from rfl]
    exact mock_step_map_self p _ hmock3
  · intro h1 h2 h3
    simp [process_chain, mock_step, chainStep, luma_step, h1, h2, h3, pyTruthy,
      generate_enhanced_mock_video]

/-- Witness for C5: with zero providers configured the chain is exactly
one mock invocation. -/
theorem provider_fallback_order_witness :
    (process_chain envNoProviders "a cat").1 =
      [⟨Provider.mock, [60, 80], some (mock_video_url "a cat")⟩] :=
  (provider_fallback_order envNoProviders "a cat").2.2.2.2.2.2.2 rfl rfl rfl

/-! ### Store-update lemmas for the background run -/

/-- Every update of the chain phase is the processing update or a
progress write of one of the invoked adapters. -/
lemma chain_updates_mem (env : Env) (p : String) :
    ∀ f ∈ chain_updates env p, f = processingUpdate ∨
      ∃ n, f = setProgress n ∧
        n ∈ (process_chain env p).1.flatMap (fun a => a.writes) := by
  intro f hf
  simp only [chain_updates, List.mem_cons, List.mem_map] at hf
  rcases hf with rfl | ⟨n, hn, rfl⟩
  · exact Or.inl rfl
  · exact Or.inr ⟨n, rfl, hn⟩

/-- Every progress value any adapter writes lies in 0..100. -/
lemma process_chain_writes_bound (env : Env) (p : String) :
    ∀ q ∈ (process_chain env p).1.flatMap (fun a => a.writes),
      0 ≤ q ∧ q ≤ 100 := by
  intro q hq
  obtain ⟨a, ha, hqa⟩ := List.mem_flatMap.mp hq
  rcases process_chain_cases env p a ha with rfl | rfl | rfl | rfl
  · rcases luma_writes env.luma_key env.luma q hqa with rfl | rfl | rfl | rfl <;>
      exact ⟨by norm_num, by norm_num⟩
  · rcases replicate_writes env.replicate_token env.replicate q hqa with
      rfl | rfl | rfl | rfl <;> exact ⟨by norm_num, by norm_num⟩
  · rcases hf_writes env.huggingface_key env.huggingface q hqa with rfl | rfl | rfl <;>
      exact ⟨by norm_num, by norm_num⟩
  · simp only [List.mem_cons, List.not_mem_nil, or_false] at hqa
    rcases hqa with rfl | rfl <;> exact ⟨by norm_num, by norm_num⟩

/-- Within each single adapter invocation, progress writes are
non-decreasing. -/
lemma process_chain_writes_chain (env : Env) (p : String) :
    ∀ a ∈ (process_chain env p).1, List.Chain' (· ≤ ·) a.writes := by
  intro a ha
  rcases process_chain_cases env p a ha with rfl | rfl | rfl | rfl
  · exact luma_writes_chain _ _
  · exact replicate_writes_chain _ _
  · exact hf_writes_chain _ _
  · simp [List.chain'_cons]

/-- Every store update of a run leaves progress in 0..100. -/
lemma record_updates_progress_bound (env : Env) (p : String) (t1 : Int) :
    ∀ f ∈ record_updates env p t1, ∀ r : GenRecord,
      0 ≤ (f r).progress ∧ (f r).progress ≤ 100 := by
  intro f hf r
  rcases henv : env.fault with _ | ⟨k, e⟩ <;>
    simp only [record_updates, henv, List.mem_append, List.mem_singleton] at hf
  · rcases hf with hf | rfl
    · rcases chain_updates_mem env p f hf with rfl | ⟨n, rfl, hn⟩
      · exact ⟨by norm_num [processingUpdate], by norm_num [processingUpdate]⟩
      · simpa [setProgress] using process_chain_writes_bound env p n hn
    · exact ⟨by norm_num [completedUpdate], by norm_num [completedUpdate]⟩
  · rcases hf with hf | rfl
    · rcases chain_updates_mem env p f (List.take_subset k _ hf) with rfl | ⟨n, rfl, hn⟩
      · exact ⟨by norm_num [processingUpdate], by norm_num [processingUpdate]⟩
      · simpa [setProgress] using process_chain_writes_bound env p n hn
    · exact ⟨by norm_num [failedUpdate], by norm_num [failedUpdate]⟩

/-- Chain-phase updates leave the record in a non-terminal status. -/
lemma chain_updates_status (env : Env) (p : String) :
    ∀ f ∈ chain_updates env p, ∀ r : GenRecord,
      (f r).status = Status.processing ∨ (f r).status = r.status := by
  intro f hf r
  rcases chain_updates_mem env p f hf with rfl | ⟨n, rfl, _⟩
  · exact Or.inl rfl
  · exact Or.inr rfl

/-- Chain-phase updates never touch `prompt`, `created_at` or
`video_url`. -/
lemma chain_updates_frame (env : Env) (p : String) :
    ∀ f ∈ chain_updates env p, ∀ r : GenRecord,
      (f r).prompt = r.prompt ∧ (f r).created_at = r.created_at ∧
      (f r).video_url = r.video_url := by
  intro f hf r
  rcases chain_updates_mem env p f hf with rfl | ⟨n, rfl, _⟩
  · exact ⟨rfl, rfl, rfl⟩
  · exact ⟨rfl, rfl, rfl⟩

/-- Every run is a list of chain-phase updates followed by exactly one
final update that sets a terminal status, keeps `prompt` and
`created_at`, and touches `video_url` only when completing. -/
lemma record_updates_shape (env : Env) (p : String) (t1 : Int) :
    ∃ us fin, record_updates env p t1 = us ++ [fin] ∧
      (∀ f ∈ us, f ∈ chain_updates env p) ∧
      (∀ r : GenRecord, (fin r).status.isTerminal = true ∧
        (fin r).prompt = r.prompt ∧ (fin r).created_at = r.created_at ∧
        ((fin r).video_url = r.video_url ∨ (fin r).status = Status.completed)) := by
  rcases henv : env.fault with _ | ⟨k, e⟩ <;>
    simp only [record_updates, henv]
  · exact ⟨chain_updates env p, completedUpdate (process_chain env p).2 t1, rfl,
      fun f hf => hf,
      fun r => ⟨rfl, rfl, rfl, Or.inr rfl⟩⟩
  · exact ⟨(chain_updates env p).take k, failedUpdate e, rfl,
      fun f hf => List.take_subset k _ hf,
      fun r => ⟨rfl, rfl, rfl, Or.inl rfl⟩⟩

/-- The fold of the updates is the last state of the sequence. -/
lemma foldl_mem_applyUpdates :
    ∀ (us : List (GenRecord → GenRecord)) (r0 : GenRecord),
      us.foldl (fun a g => g a) r0 ∈ applyUpdates r0 us := by
  intro us
  induction us with
  | nil => intro r0; simp [applyUpdates]
  | cons f fs ih =>
    intro r0
    simp only [List.foldl_cons, applyUpdates, List.mem_cons]
    exact Or.inr (ih (f r0))

/-! ## C1 — progress range and monotonicity -/

/-- C1 counterexample: with Luma and Replicate configured and Luma's
submission rejected (HTTP 500), the progress sequence of the record is
0, 10, 25, 50, 35, 55, 60, 80, 100 — it decreases from 50 to 35 when
the orchestrator falls through from Luma to Replicate, so progress is
not monotonically non-decreasing across successive updates. -/
theorem progress_not_monotone_across_adapters :
    ¬ List.Chain' (· ≤ ·)
      ((statusTrace envLumaThenReplicate "a prompt" 0 9).map GenRecord.progress) := by
  rw [show (statusTrace envLumaThenReplicate "a prompt" 0 9).map GenRecord.progress =
      [0, 10, 25, 50, 35, 55, 60, 80, 100] from rfl]
  simp only [List.chain'_cons, List.chain'_singleton, and_true]
  omega

/-- C1 amended: every progress value of every record state is an
integer in 0..100, and progress is non-decreasing within each single
adapter invocation and throughout a run in which no provider is
configured; but it can decrease at the hand-over from one failed
provider to the next. -/
theorem progress_range_and_per_attempt_monotone (env : Env) (p : String)
    (t0 t1 : Int) :
    (∀ r ∈ statusTrace env p t0 t1, 0 ≤ r.progress ∧ r.progress ≤ 100) ∧
    (∀ a ∈ (process_chain env p).1, List.Chain' (· ≤ ·) a.writes) ∧
    (env.luma_key = false → env.replicate_token = false →
      env.huggingface_key = false → env.fault = none →
      List.Chain' (· ≤ ·) ((statusTrace env p t0 t1).map GenRecord.progress)) := by
  refine ⟨?_, process_chain_writes_chain env p, ?_⟩
  · apply applyUpdates_inv (fun r => 0 ≤ r.progress ∧ r.progress ≤ 100)
    · exact ⟨by norm_num [initialRecord], by norm_num [initialRecord]⟩
    · intro f hf r _
      exact record_updates_progress_bound env p t1 f hf r
  · intro h1 h2 h3 h4
    simp only [statusTrace, record_updates, h4, chain_updates, process_chain,
      mock_step, chainStep, luma_step, h1, h2, h3, pyTruthy,
      generate_enhanced_mock_video, applyUpdates, processingUpdate, setProgress,
      completedUpdate, initialRecord]
    simp [List.chain'_cons]

/-- Witness for C1 (amended): the mock-only run has the monotone
progress sequence 0, 10, 60, 80, 100. -/
theorem progress_range_witness :
    List.Chain' (· ≤ ·)
      ((statusTrace envNoProviders "hello" 0 9).map GenRecord.progress) :=
  (progress_range_and_per_attempt_monotone envNoProviders "hello" 0 9).2.2
    rfl rfl rfl rfl

/-! ## C2 — terminal states are immutable -/

/-- C2: along every run's sequence of record states, once a state is
terminal every later state is identical to it — so no update modifies
any field after a terminal state, every subsequent status read returns
the same response, and no operation leaves a terminal state. -/
theorem terminal_state_immutable (env : Env) (p : String) (t0 t1 : Int) :
    (statusTrace env p t0 t1).Pairwise
      (fun r s => r.status.isTerminal = true →
        s = r ∧ statusResponseOf s = statusResponseOf r) := by
  obtain ⟨us, fin, heq, hsub, hfin⟩ := record_updates_shape env p t1
  have hM : ∀ r ∈ applyUpdates (initialRecord t0 p) us,
      r.status.isTerminal = false := by
    apply applyUpdates_inv (fun r => r.status.isTerminal = false)
    · rfl
    · intro f hf r hr
      rcases chain_updates_status env p f (hsub f hf) r with h | h <;> rw [h]
      · rfl
      · exact hr
  rw [statusTrace, heq, applyUpdates_append_single]
  rw [List.pairwise_append]
  refine ⟨?_, List.pairwise_singleton _ _, ?_⟩
  · apply List.pairwise_of_forall_mem_list
    intro a ha b hb hterm
    rw [hM a ha] at hterm
    cases hterm
  · intro a ha b hb hterm
    rw [hM a ha] at hterm
    cases hterm

/-- Witness for C2 at a concrete run. -/
theorem terminal_state_immutable_witness :
    (statusTrace envNoProviders "x" 0 1).Pairwise
      (fun r s => r.status.isTerminal = true →
        s = r ∧ statusResponseOf s = statusResponseOf r) :=
  terminal_state_immutable envNoProviders "x" 0 1

/-! ## C8 — mock-only runs complete -/

/-- C8: with no provider credential configured and no unrecoverable
exception, a run ends with status `completed`, progress 100, the mock's
keyword-selected URL, the original prompt and creation time, and the
completion timestamp recorded. -/
theorem mock_only_run_completes (env : Env) (p : String) (t0 t1 : Int)
    (h1 : env.luma_key = false) (h2 : env.replicate_token = false)
    (h3 : env.huggingface_key = false) (h4 : env.fault = none) :
    (statusTrace env p t0 t1).getLast? = some
      { status := Status.completed, progress := 100, created_at := t0,
        prompt := p, video_url := some (mock_video_url p), error := none,
        completed_at := some t1 } := by
  simp [statusTrace, record_updates, h4, chain_updates, process_chain, mock_step,
    chainStep, luma_step, h1, h2, h3, pyTruthy, generate_enhanced_mock_video,
    applyUpdates, processingUpdate, setProgress, completedUpdate, initialRecord]

/-- Witness for C8 at a concrete run. -/
theorem mock_only_run_completes_witness :
    (statusTrace envNoProviders "a cat" 0 9).getLast? = some
      { status := Status.completed, progress := 100, created_at := 0,
        prompt := "a cat", video_url := some (mock_video_url "a cat"),
        error := none, completed_at := some 9 } :=
  mock_only_run_completes envNoProviders "a cat" 0 9 rfl rfl rfl rfl

/-! ## C10 — frame conditions on the record -/

/-- C10: every state of a generation's record keeps the prompt and
creation timestamp written at creation (updates touch only status,
progress, video URL, error and completion timestamp), and a state with
status `failed` never carries a video URL. -/
theorem record_frame_conditions (env : Env) (p : String) (t0 t1 : Int) :
    ∀ r ∈ statusTrace env p t0 t1,
      r.prompt = p ∧ r.created_at = t0 ∧
      (r.status = Status.failed → r.video_url = none) := by
  obtain ⟨us, fin, heq, hsub, hfin⟩ := record_updates_shape env p t1
  have hM : ∀ r ∈ applyUpdates (initialRecord t0 p) us,
      r.prompt = p ∧ r.created_at = t0 ∧ r.video_url = none := by
    apply applyUpdates_inv
    · exact ⟨rfl, rfl, rfl⟩
    · intro f hf r hr
      obtain ⟨h1, h2, h3⟩ := chain_updates_frame env p f (hsub f hf) r
      exact ⟨h1.trans hr.1, h2.trans hr.2.1, h3.trans hr.2.2⟩
  rw [statusTrace, heq, applyUpdates_append_single]
  intro r hr
  rcases List.mem_append.mp hr with h | h
  · obtain ⟨h1, h2, h3⟩ := hM r h
    exact ⟨h1, h2, fun _ => h3⟩
  · simp only [List.mem_singleton] at h
    subst h
    obtain ⟨hlp, hlc, hlv⟩ := hM _ (foldl_mem_applyUpdates us (initialRecord t0 p))
    obtain ⟨hterm, hp, hc, hv⟩ := hfin (us.foldl (fun a g => g a) (initialRecord t0 p))
    refine ⟨hp.trans hlp, hc.trans hlc, ?_⟩
    intro hfail
    rcases hv with hv | hv
    · exact hv.trans hlv
    · rw [hfail] at hv
      cases hv

/-- Witness for C10: the failed record of a faulted run carries no
video URL. -/
theorem record_frame_conditions_witness :
    ({ status := Status.failed, progress := 0, created_at := 3, prompt := "y",
       video_url := none, error := some "boom", completed_at := none } :
      GenRecord).video_url = none :=
  (record_frame_conditions envWithFault "y" 3 9
    { status := Status.failed, progress := 0, created_at := 3, prompt := "y",
      video_url := none, error := some "boom", completed_at := none }
    (by decide)).2.2 rfl

end AIVideoGen
